import Mathlib

/-!
# Verification of the voice-AI bot's session and artifact lifecycle

Shallow embedding of the core of `snegirevdv/voice-ai-bot`:

* `src/app/file_manager.py` — `FileManager` (scratch-directory paths,
  idempotent delete, periodic sweep of old files);
* `src/app/openai.py` — `OpenAIClient` (assistant bootstrap, `respond`
  with its run-status polling loop and error translation, reply
  extraction with fallback);
* `src/app/bot.py` — `VoiceAIBot.handle_voice` / `handle_text`
  (per-request orchestration with placeholder message and cleanup).

External calls (network, filesystem, provider API) are modelled as
oracles: a behaviour record says, for each call the code makes, whether
it succeeds or raises and what it returns.  Python exceptions are the
explicit `PyError` type; a function that can raise returns `Except` or
records the escaping error in its trace.  Real time inside the polling
loop advances by exactly the 1-second `asyncio.sleep(1)` per iteration,
with the status-retrieval calls taking zero model time.
-/

/-- The Python exception kinds the code distinguishes.
`oaiService`/`oaiRateLimit`/`oaiTimeout` are `OpenAIServiceError` and its
two subclasses from `src/app/openai.py`; `asyncioTimeout` is
`asyncio.TimeoutError` (not a superclass of `OpenAITimeoutError`);
`unboundLocal` is Python's `UnboundLocalError` when a local variable is
read before any assignment; `other` is any other exception.  The carried
string is what `str(e)` yields. -/
inductive PyError where
  | oaiService (msg : String)
  | oaiRateLimit (msg : String)
  | oaiTimeout (msg : String)
  | asyncioTimeout (msg : String)
  | unboundLocal (varName : String)
  | other (msg : String)
deriving DecidableEq, Repr

/-- Python's `str(e)` on the modelled exceptions. -/
def PyError.str : PyError → String
  | .oaiService m => m
  | .oaiRateLimit m => m
  | .oaiTimeout m => m
  | .asyncioTimeout m => m
  | .unboundLocal v => v
  | .other m => m

/-! ## FileManager (src/app/file_manager.py) -/

/-- `FileManager.get_voice_path` (file_manager.py:20-22):
`self.temp_dir / f'voice_{user_id}_{file_id}.ogg'`.  A `Path` is
modelled as its string form; `/` on paths appends a separator and the
component. -/
def get_voice_path (tempDir : String) (userId : Nat) (fileId : String) : String :=
  tempDir ++ "/" ++ ("voice_" ++ toString userId ++ "_" ++ fileId ++ ".ogg")

/-- One entry yielded by `self.temp_dir.glob('*')` in
`FileManager.cleanup_old_files`.  `isFile` is `file_path.is_file()`;
`age` is `current_time - file_path.stat().st_mtime` (an integer in the
model); `statFails` says the `stat()` call raises for this entry. -/
structure SweepEntry where
  isFile : Bool
  age : Int
  statFails : Bool
deriving DecidableEq, Repr

/-- The loop body of `FileManager.cleanup_old_files`
(file_manager.py:36-56), over the directory listing.  The whole `for`
loop sits inside a single `try`; `delete_file` itself never raises
(it catches everything, file_manager.py:24-34) and the counter is
incremented after each delete call.  A raising `stat()` transfers
control to the outer `except`, which returns `deleted_count` as
accumulated so far — the remaining entries are never visited. -/
def cleanupLoop (maxAge : Int) : List SweepEntry → Nat → Nat
  | [], acc => acc
  | e :: rest, acc =>
    if e.isFile then
      if e.statFails then acc
      else if e.age > maxAge then cleanupLoop maxAge rest (acc + 1)
      else cleanupLoop maxAge rest acc
    else cleanupLoop maxAge rest acc

/-- `FileManager.cleanup_old_files(max_age_seconds)`: returns the number
of delete calls made before the scan finished or was cut short by an
exception. -/
def cleanup_old_files (entries : List SweepEntry) (maxAge : Int) : Nat :=
  cleanupLoop maxAge entries 0

/-- The scan prefix actually visited by `cleanup_old_files`: everything
before the first entry whose `stat()` raises. -/
def scannedPrefix : List SweepEntry → List SweepEntry
  | [] => []
  | e :: rest =>
    if e.isFile && e.statFails then []
    else e :: scannedPrefix rest

/-- Number of old regular files in a listing (those a fault-free scan
deletes and counts). -/
def countOld (maxAge : Int) (entries : List SweepEntry) : Nat :=
  (entries.filter (fun e => e.isFile && decide (e.age > maxAge))).length

/-- The sweep the spec's words describe (claim C4): an error on an
individual file is tolerated and the scan of the remaining files
continues. -/
def cleanup_old_files_spec (entries : List SweepEntry) (maxAge : Int) : Nat :=
  countOld maxAge (entries.filter (fun e => !e.statFails))

/-! ## Run-completion polling loop (src/app/openai.py:152-179) -/

/-- The message of the `OpenAITimeoutError` raised by
`_wait_for_run_completion`: `f'Превышено время ожидания ответа ({timeout} сек)'`. -/
def timeoutMsg (timeout : Nat) : String :=
  "Превышено время ожидания ответа (" ++ toString timeout ++ " сек)"

/-- `run_status.status in ['failed', 'cancelled', 'expired']`. -/
def isTerminalStatus (s : String) : Bool :=
  s = "failed" || s = "cancelled" || s = "expired"

/-- A status on which the polling loop stops (returns or raises). -/
def stopsLoop (s : String) : Bool :=
  s = "completed" || isTerminalStatus s

/-- The `while True` loop of `_wait_for_run_completion`.  `statusAt n`
is the status the `runs.retrieve` call returns on the poll made at
elapsed time `n` seconds (each iteration ends in `asyncio.sleep(1)`, so
the poll of iteration `n` happens at elapsed time `n`).  The loop-top
check `time.time() - start_time > timeout` is `n > timeout`, i.e. the
`remaining` counter `timeout + 1 - n` has reached `0`.  Returns the
result (`.ok` for a `completed` return, `.error` for either raise) and
the number of `runs.retrieve` calls made. -/
def waitGo (statusAt : Nat → String) (timeout : Nat) :
    Nat → Nat → Except PyError Unit × Nat
  | 0, _ => (.error (.oaiTimeout (timeoutMsg timeout)), 0)
  | remaining + 1, n =>
    if statusAt n = "completed" then (.ok (), 1)
    else if isTerminalStatus (statusAt n) then
      (.error (.oaiService ("Обработка запроса не выполнена, статус: " ++ statusAt n)), 1)
    else
      let r := waitGo statusAt timeout remaining (n + 1)
      (r.1, r.2 + 1)

/-- `OpenAIClient._wait_for_run_completion(thread_id, run_id, timeout)`:
the loop starting at elapsed time `0`, so with `timeout + 1` iterations
available before the deadline check fires. -/
def wait_for_run_completion (statusAt : Nat → String) (timeout : Nat) :
    Except PyError Unit × Nat :=
  waitGo statusAt timeout (timeout + 1) 0

/-! ## Reply extraction (src/app/openai.py:181-204) -/

/-- One element of an assistant message's `content` list.  `text` is
`some value` when `hasattr(content, 'text')` holds, with `value` the
`content.text.value` string; `none` models a segment without a `text`
attribute. -/
structure ContentSegment where
  text : Option String
deriving DecidableEq, Repr

/-- One entry of `messages.data` as returned by
`client.beta.threads.messages.list`. -/
structure ThreadMessage where
  role : String
  content : List ContentSegment
deriving DecidableEq, Repr

/-- The fixed fallback reply of `_extract_assistant_response`
(openai.py:202). -/
def fallbackResponse : String := "Извините, в данный момент у меня нет ответа."

/-- `OpenAIClient._extract_assistant_response(thread_id)` over the
listing `messages.data`: the `for` loop returns, at the first message
with `role == 'assistant'`, the space-join of the `text.value` of the
content segments that have a `text` attribute; if the loop finds no
assistant message it returns the fixed fallback string.  Both branches
return the thread id unchanged. -/
def extract_assistant_response : List ThreadMessage → String → String × String
  | [], threadId => (fallbackResponse, threadId)
  | m :: rest, threadId =>
    if m.role = "assistant" then
      (String.intercalate " " (m.content.filterMap ContentSegment.text), threadId)
    else
      extract_assistant_response rest threadId

/-! ## respond and its error translation (src/app/openai.py:56-106) -/

/-- ASCII-prefix test on character lists (used for the substring test
of the rate-limit heuristic). -/
def charsPrefix : List Char → List Char → Bool
  | [], _ => true
  | _ :: _, [] => false
  | a :: as, b :: bs => a = b && charsPrefix as bs

/-- Substring occurrence test on character lists: `needle` occurs
somewhere in `hay`. -/
def charsContains (needle : List Char) : List Char → Bool
  | [] => charsPrefix needle []
  | b :: bs => charsPrefix needle (b :: bs) || charsContains needle bs

/-- Python's `needle in hay` on strings. -/
def strContains (hay needle : String) : Bool :=
  charsContains needle.data hay.data

/-- Python's `str.lower()`.  `Char.toLower` lowercases ASCII letters
only; the two needles the heuristic searches for are pure ASCII, so
the classification below agrees with the source on every error
text. -/
def strLower (s : String) : String := ⟨s.data.map Char.toLower⟩

/-- `'rate_limit' in str(e).lower() or 'too many requests' in str(e).lower()`
(openai.py:99). -/
def isRateLimitText (s : String) : Bool :=
  strContains (strLower s) "rate_limit" || strContains (strLower s) "too many requests"

/-- The `except` clauses of `OpenAIClient.respond` (openai.py:93-106):
an `asyncio.TimeoutError` becomes an `OpenAITimeoutError`; every other
exception — including an `OpenAITimeoutError` raised by the polling
loop, which no clause before `except Exception` matches — is classified
by the rate-limit text heuristic and becomes `OpenAIRateLimitError` or
`OpenAIServiceError`. -/
def translateRespondError (e : PyError) : PyError :=
  match e with
  | .asyncioTimeout m =>
    .oaiTimeout ("Превышено время ожидания ответа от OpenAI: " ++ m)
  | e =>
    if isRateLimitText e.str then
      .oaiRateLimit ("Превышен лимит запросов к API OpenAI: " ++ e.str)
    else
      .oaiService ("Ошибка при получении ответа от ассистента: " ++ e.str)

/-- Outcomes of the provider calls a single `respond` execution makes.
A `some e` fault means that call raises `e`; `statusAt` drives the
polling loop; `messagesData` is the listing `messages.list` returns. -/
structure RespondBehavior where
  createThreadFault : Option PyError
  messageCreateFault : Option PyError
  runCreateFault : Option PyError
  statusAt : Nat → String
  listFault : Option PyError
  messagesData : List ThreadMessage

/-- Thread ids issued by the provider's `threads.create`: the `n`-th
creation yields a fresh opaque non-empty id. -/
def newThreadId (counter : Nat) : String := "thread-" ++ toString counter

/-- Result of one `respond` execution: the returned pair or the raised
error, the provider's thread-creation counter afterwards, and how many
`threads.create` calls this execution made. -/
structure RespondResult where
  result : Except PyError (String × String)
  counter : Nat
  createCalls : Nat
deriving Repr

/-- `respond` after a thread id is in hand (openai.py:73-91):
`messages.create`, `runs.create`, `_wait_for_run_completion` (with the
default 60-second timeout), then `messages.list` inside
`_extract_assistant_response`.  Errors propagate to the `except`
clauses untranslated here. -/
def respondRestResult (b : RespondBehavior) (threadId : String) :
    Except PyError (String × String) :=
  match b.messageCreateFault with
  | some e => .error e
  | none =>
    match b.runCreateFault with
    | some e => .error e
    | none =>
      match (wait_for_run_completion b.statusAt 60).1 with
      | .error e => .error e
      | .ok _ =>
        match b.listFault with
        | some e => .error e
        | none => .ok (extract_assistant_response b.messagesData threadId)

/-- `respondRestResult` packaged with the provider counter and the
create-call count, which these steps never touch. -/
def respondRest (b : RespondBehavior) (counter : Nat) (threadId : String)
    (creates : Nat) : RespondResult :=
  ⟨respondRestResult b threadId, counter, creates⟩

/-- The `try` body of `OpenAIClient.respond(user_message, thread_id)`
(openai.py:65-91).  Python's `if not thread_id` is the falsy test: it
holds for `None` and for the empty string, and in both cases a new
thread is created (one `threads.create` call, successful or not). -/
def respondRaw (b : RespondBehavior) (counter : Nat)
    (threadIdArg : Option String) : RespondResult :=
  match threadIdArg with
  | none =>
    match b.createThreadFault with
    | some e => ⟨.error e, counter, 1⟩
    | none => respondRest b (counter + 1) (newThreadId counter) 1
  | some tid =>
    if tid = "" then
      match b.createThreadFault with
      | some e => ⟨.error e, counter, 1⟩
      | none => respondRest b (counter + 1) (newThreadId counter) 1
    else
      respondRest b counter tid 0

/-- `OpenAIClient.respond`: the `try` body with every escaping error
passed through the `except` clauses' translation.  The user message's
text does not influence the modelled control flow (the assistant's
replies are the `messagesData` oracle), so it is not a parameter. -/
def respond (b : RespondBehavior) (counter : Nat)
    (threadIdArg : Option String) : RespondResult :=
  let r := respondRaw b counter threadIdArg
  ⟨match r.result with
   | .ok v => .ok v
   | .error e => .error (translateRespondError e),
   r.counter, r.createCalls⟩

/-! ## Assistant identity bootstrap (src/app/openai.py:36-54) -/

/-- An assistant as the provider lists it. -/
structure Assistant where
  name : String
  id : String
deriving DecidableEq, Repr

/-- The fixed assistant name `initialize_assistant` looks for. -/
def botAssistantName : String := "tg-ai-voice-bot"

/-- Arguments of an `assistants.create` call (openai.py:45-49). -/
structure CreateRecord where
  name : String
  instructions : String
  model : String
  id : String
deriving DecidableEq, Repr

/-- `OpenAIClient.initialize_assistant`: `assistants.list(limit=1)`
returns the first entry of the provider's listing (if any); the stored
id is reused only when that single entry's name is `'tg-ai-voice-bot'`,
otherwise `assistants.create(name='tg-ai-voice-bot',
instructions=self.instruction, model='gpt-4o')` runs and its fresh id
is stored.  Returns the stored `assistant_id` and the create call made,
if any. -/
def initialize_assistant (listing : List Assistant) (freshId : String)
    (instruction : String) : String × Option CreateRecord :=
  match listing.take 1 with
  | a :: _ =>
    if a.name = botAssistantName then
      (a.id, none)
    else
      (freshId, some ⟨botAssistantName, instruction, "gpt-4o", freshId⟩)
  | [] => (freshId, some ⟨botAssistantName, instruction, "gpt-4o", freshId⟩)

/-! ## Session registry and _get_response (src/app/bot.py:146-151) -/

/-- `self.user_threads[user_id] = tid` on the dictionary, modelled as a
partial map. -/
def updateThreads (threads : Nat → Option String) (userId : Nat)
    (tid : String) : Nat → Option String :=
  fun v => if v = userId then some tid else threads v

/-- Result of one `VoiceAIBot._get_response` execution: the returned
pair or the propagated error, the provider counter, the number of
`threads.create` calls, and the registry afterwards. -/
structure GetResponseResult where
  result : Except PyError (String × String)
  counter : Nat
  createCalls : Nat
  threads : Nat → Option String

/-- `VoiceAIBot._get_response(user_id, text)`: looks the user up in
`self.user_threads`, calls `client.respond`, and on success stores the
returned thread id back under the user.  If `respond` raises, the
exception propagates and the registry is left untouched. -/
def get_response (b : RespondBehavior) (counter : Nat)
    (threads : Nat → Option String) (userId : Nat) : GetResponseResult :=
  let r := respond b counter (threads userId)
  match r.result with
  | .ok (resp, newTid) =>
    ⟨.ok (resp, newTid), r.counter, r.createCalls, updateThreads threads userId newTid⟩
  | .error e => ⟨.error e, r.counter, r.createCalls, threads⟩

/-! ## Request handlers (src/app/bot.py:45-114) -/

/-- Fault injection for one `handle_voice` execution: for each step
that contacts the outside world, `some e` makes that call raise `e`.
`downloadFault` covers `_download_voice_message` (bot.py:116-127),
`transcribeFault` covers `_transcribe_voice`, `respondFault` covers
`client.respond` inside `_get_response`, `ttsFault` covers
`client.text_to_speech`, and `sendFault` covers
`message.answer_voice`.  The placeholder `answer`/`delete` calls of the
messaging transport are taken fault-free. -/
structure VoiceFaults where
  downloadFault : Option PyError
  transcribeFault : Option PyError
  respondFault : Option PyError
  ttsFault : Option PyError
  sendFault : Option PyError

/-- State at the end of `handle_voice`'s `try` block (bot.py:55-69):
the two path locals, the `msg_deleted` local (`none` models the Python
variable never having been assigned — it has no initialisation before
the `try`), the artifact files materialised on disk so far, how many
times `msg.delete()` ran inside the `try`, and the exception the block
raised, if any. -/
structure VoiceTryState where
  voiceFilePath : Option String
  answerFilePath : Option String
  msgDeleted : Option Bool
  createdFiles : List String
  placeholderDeletes : Nat
  fault : Option PyError
deriving Repr

/-- The `try` block of `handle_voice`, step by step: download (creates
the inbound file), transcribe, show the heard text and delete the
placeholder (setting `msg_deleted = True`), then
`_process_and_respond` = `_get_response` followed by
`_create_and_send_voice` (bot.py:134-159).  `text_to_speech` creates
the outbound file and returns its path, but that path reaches the
handler's `answer_file_path` local only if the subsequent
`answer_voice` send also succeeds — `_create_and_send_voice` returns
after the send. -/
def voiceTryBlock (f : VoiceFaults) (voicePath ttsPath : String) : VoiceTryState :=
  match f.downloadFault with
  | some e => ⟨none, none, none, [], 0, some e⟩
  | none =>
    match f.transcribeFault with
    | some e => ⟨some voicePath, none, none, [voicePath], 0, some e⟩
    | none =>
      match f.respondFault with
      | some e => ⟨some voicePath, none, some true, [voicePath], 1, some e⟩
      | none =>
        match f.ttsFault with
        | some e => ⟨some voicePath, none, some true, [voicePath], 1, some e⟩
        | none =>
          match f.sendFault with
          | some e => ⟨some voicePath, none, some true, [voicePath, ttsPath], 1, some e⟩
          | none => ⟨some voicePath, some ttsPath, some true, [voicePath, ttsPath], 1, none⟩

/-- Observable outcome of one handler execution: the artifact files the
request materialised, the paths passed to `file_manager.delete_file`
(in order), how many times the placeholder message was deleted, how
many apology messages were sent, and the exception escaping the
handler, if any. -/
structure HandlerTrace where
  createdFiles : List String
  deleteCalls : List String
  placeholderDeletes : Nat
  apologies : Nat
  escaped : Option PyError
deriving Repr

/-- `VoiceAIBot.handle_voice` (bot.py:45-88).  Each `except` clause
sends exactly one apology message.  The `finally` block first evaluates
`if not msg_deleted:`; since `msg_deleted` has no assignment before the
`try`, reading it when no assignment ran raises `UnboundLocalError`,
which aborts the rest of the `finally` — neither the placeholder
deletion nor either `delete_file` call runs — and escapes the
handler. -/
def handle_voice (f : VoiceFaults) (voicePath ttsPath : String) : HandlerTrace :=
  let t := voiceTryBlock f voicePath ttsPath
  let apologies := if t.fault.isSome then 1 else 0
  match t.msgDeleted with
  | none =>
    ⟨t.createdFiles, [], t.placeholderDeletes, apologies,
      some (.unboundLocal "msg_deleted")⟩
  | some b =>
    let placeholderTotal := t.placeholderDeletes + (if b then 0 else 1)
    let dels :=
      (match t.voiceFilePath with | some p => [p] | none => []) ++
      (match t.answerFilePath with | some p => [p] | none => [])
    ⟨t.createdFiles, dels, placeholderTotal, apologies, none⟩

/-- Fault injection for one `handle_text` execution (no download or
transcription step). -/
structure TextFaults where
  respondFault : Option PyError
  ttsFault : Option PyError
  sendFault : Option PyError

/-- `VoiceAIBot.handle_text` (bot.py:90-114): the `try` block is just
`_process_and_respond`; the `finally` always deletes the placeholder
and then deletes `answer_file_path` when it is set.  As in the voice
variant, a synthesis file created before a failing send never reaches
`answer_file_path`. -/
def handle_text (f : TextFaults) (ttsPath : String) : HandlerTrace :=
  let (answerFilePath, created, fault) :=
    match f.respondFault with
    | some e => ((none : Option String), ([] : List String), some e)
    | none =>
      match f.ttsFault with
      | some e => (none, [], some e)
      | none =>
        match f.sendFault with
        | some e => (none, [ttsPath], some e)
        | none => (some ttsPath, [ttsPath], none)
  let apologies := if fault.isSome then 1 else 0
  let dels := match answerFilePath with | some p => [p] | none => []
  ⟨created, dels, 1, apologies, none⟩

/-! ## Helper lemmas -/

/-- Reply extraction returns the thread id it was given, in every
branch. -/
theorem extract_snd (l : List ThreadMessage) (tid : String) :
    (extract_assistant_response l tid).2 = tid := by
  induction l with
  | nil => rfl
  | cons m rest ih =>
    by_cases h : m.role = "assistant" <;>
      simp [extract_assistant_response, h, ih]

/-- A terminal run status is not the success status. -/
theorem terminal_ne_completed {s : String} (h : isTerminalStatus s = true) :
    ¬ s = "completed" := by
  rcases (by simpa [isTerminalStatus] using h :
      (s = "failed" ∨ s = "cancelled") ∨ s = "expired") with (h' | h') | h' <;>
    (subst h'; decide)

/-- Unfolding `stopsLoop … = false`. -/
theorem stopsLoop_false {s : String} (h : stopsLoop s = false) :
    ¬ s = "completed" ∧ isTerminalStatus s = false := by
  constructor
  · intro hc
    subst hc
    simp [stopsLoop] at h
  · by_contra hterm
    simp [stopsLoop, Bool.or_eq_false_iff] at h
    exact hterm h.2

/-- The polling loop times out when no poll within the window stops
it: every available iteration polls and sleeps, and the deadline check
of the next iteration raises, after `remaining` polls in total. -/
theorem waitGo_timeout_of_no_stop (statusAt : Nat → String) (timeout : Nat) :
    ∀ remaining n, (∀ k, k < remaining → stopsLoop (statusAt (n + k)) = false) →
      waitGo statusAt timeout remaining n =
        (.error (.oaiTimeout (timeoutMsg timeout)), remaining) := by
  intro remaining
  induction remaining with
  | zero => intro n _; rfl
  | succ r ih =>
    intro n h
    have h0 := stopsLoop_false (by simpa using h 0 (Nat.succ_pos r))
    have hrec := ih (n + 1) (fun k hk => by
      have := h (k + 1) (by omega)
      simpa [Nat.add_assoc, Nat.add_comm 1 k] using this)
    simp [waitGo, h0.1, h0.2, hrec]

/-- The polling loop returns after exactly `N + 1` polls when the
status first stops it at elapsed time `N` with `completed`. -/
theorem waitGo_completed (statusAt : Nat → String) (timeout : Nat) :
    ∀ remaining n N, N < remaining →
      (∀ k, k < N → stopsLoop (statusAt (n + k)) = false) →
      statusAt (n + N) = "completed" →
      waitGo statusAt timeout remaining n = (.ok (), N + 1) := by
  intro remaining
  induction remaining with
  | zero => intro n N hN; omega
  | succ r ih =>
    intro n N hN hpre hc
    match N with
    | 0 =>
      simp only [Nat.add_zero] at hc
      simp [waitGo, hc]
    | N' + 1 =>
      have h0 := stopsLoop_false (by simpa using hpre 0 (Nat.succ_pos N'))
      have hrec := ih (n + 1) N' (by omega)
        (fun k hk => by
          have := hpre (k + 1) (by omega)
          simpa [Nat.add_assoc, Nat.add_comm 1 k] using this)
        (by simpa [Nat.add_assoc, Nat.add_comm 1 N'] using hc)
      simp [waitGo, h0.1, h0.2, hrec]

/-- The polling loop raises the generic service fault naming the
status after exactly `N + 1` polls when the status first stops it at
elapsed time `N` with a terminal failure status. -/
theorem waitGo_terminal (statusAt : Nat → String) (timeout : Nat) :
    ∀ remaining n N, N < remaining →
      (∀ k, k < N → stopsLoop (statusAt (n + k)) = false) →
      isTerminalStatus (statusAt (n + N)) = true →
      waitGo statusAt timeout remaining n =
        (.error (.oaiService
          ("Обработка запроса не выполнена, статус: " ++ statusAt (n + N))), N + 1) := by
  intro remaining
  induction remaining with
  | zero => intro n N hN; omega
  | succ r ih =>
    intro n N hN hpre hterm
    match N with
    | 0 =>
      simp only [Nat.add_zero] at hterm ⊢
      simp [waitGo, terminal_ne_completed hterm, hterm]
    | N' + 1 =>
      have h0 := stopsLoop_false (by simpa using hpre 0 (Nat.succ_pos N'))
      have hrec := ih (n + 1) N' (by omega)
        (fun k hk => by
          have := hpre (k + 1) (by omega)
          simpa [Nat.add_assoc, Nat.add_comm 1 k] using this)
        (by simpa [Nat.add_assoc, Nat.add_comm 1 N'] using hterm)
      have : n + (N' + 1) = n + 1 + N' := by omega
      rw [this]
      simp [waitGo, h0.1, h0.2, hrec]

/-- `respondRest` never calls `threads.create`: its create count and
counter are whatever it was handed. -/
theorem respondRest_effects (b : RespondBehavior) (c : Nat) (tid : String)
    (k : Nat) :
    (respondRest b c tid k).createCalls = k ∧ (respondRest b c tid k).counter = c :=
  ⟨rfl, rfl⟩

/-- When the post-creation steps of `respond` succeed, the returned
pair is the extraction result for the thread id they were handed. -/
theorem respondRestResult_ok (b : RespondBehavior) (tid : String)
    (v : String × String) (h : respondRestResult b tid = .ok v) :
    v = extract_assistant_response b.messagesData tid := by
  unfold respondRestResult at h
  repeat' split at h
  all_goals first
    | exact (Except.ok.inj h).symm
    | exact absurd h (by simp)

/-- `respond` with no supplied thread id makes exactly one
`threads.create` call. -/
theorem respond_none_createCalls (b : RespondBehavior) (c : Nat) :
    (respond b c none).createCalls = 1 := by
  cases hc : b.createThreadFault <;>
    simp [respond, respondRaw, respondRest, hc]

/-- `respond` with a supplied non-empty thread id makes no
`threads.create` call. -/
theorem respond_some_createCalls (b : RespondBehavior) (c : Nat) (tid : String)
    (ht : ¬ tid = "") : (respond b c (some tid)).createCalls = 0 := by
  simp [respond, respondRaw, respondRest, if_neg ht]

/-- `respond` with a supplied non-empty thread id returns, on success,
that same thread id. -/
theorem respond_some_ok_tid (b : RespondBehavior) (c : Nat) (tid : String)
    (ht : ¬ tid = "") (rp t2 : String)
    (h : (respond b c (some tid)).result = .ok (rp, t2)) : t2 = tid := by
  have hres : (respond b c (some tid)).result =
      match respondRestResult b tid with
      | .ok v => .ok v
      | .error e => .error (translateRespondError e) := by
    simp [respond, respondRaw, respondRest, if_neg ht]
  rw [hres] at h
  rcases hr : respondRestResult b tid with e | v <;> simp only [hr] at h
  · exact absurd h (by simp)
  · have h2 : v = (rp, t2) := Except.ok.inj h
    have hv := respondRestResult_ok b tid v hr
    have h3 := extract_snd b.messagesData tid
    rw [← hv, h2] at h3
    exact h3

/-- `respond` with no supplied thread id returns, on success, the
thread id the provider issued for this call, together with the
advanced provider counter. -/
theorem respond_none_ok_tid (b : RespondBehavior) (c : Nat) (rp t2 : String)
    (h : (respond b c none).result = .ok (rp, t2)) :
    t2 = newThreadId c := by
  cases hc : b.createThreadFault with
  | some e =>
    have hres : (respond b c none).result =
        .error (translateRespondError e) := by
      simp [respond, respondRaw, hc]
    rw [hres] at h
    exact absurd h (by simp)
  | none =>
    have hres : (respond b c none).result =
        match respondRestResult b (newThreadId c) with
        | .ok v => .ok v
        | .error e => .error (translateRespondError e) := by
      simp [respond, respondRaw, respondRest, hc]
    rw [hres] at h
    rcases hr : respondRestResult b (newThreadId c) with e | v <;> simp only [hr] at h
    · exact absurd h (by simp)
    · have h2 : v = (rp, t2) := Except.ok.inj h
      have hv := respondRestResult_ok b (newThreadId c) v hr
      have h3 := extract_snd b.messagesData (newThreadId c)
      rw [← hv, h2] at h3
      exact h3

/-- Provider-issued thread ids are non-empty. -/
theorem newThreadId_ne_empty (c : Nat) : ¬ newThreadId c = "" := by
  intro h
  have h2 := congrArg String.data h
  rw [newThreadId] at h2
  rw [String.data_append] at h2
  simp at h2

/-- Splitting off the head of `countOld`. -/
theorem countOld_cons (maxAge : Int) (e : SweepEntry) (l : List SweepEntry) :
    countOld maxAge (e :: l) =
      (if e.isFile && decide (e.age > maxAge) then 1 else 0) + countOld maxAge l := by
  by_cases h : e.isFile && decide (e.age > maxAge) <;>
    simp [countOld, List.filter_cons, h, Nat.add_comm]

/-- The sweep's loop returns its accumulator plus the number of old
files in the prefix it actually scans. -/
theorem cleanupLoop_eq (maxAge : Int) :
    ∀ entries acc, cleanupLoop maxAge entries acc =
      acc + countOld maxAge (scannedPrefix entries) := by
  intro entries
  induction entries with
  | nil => intro acc; simp [cleanupLoop, scannedPrefix, countOld]
  | cons e rest ih =>
    intro acc
    by_cases hf : e.isFile
    · by_cases hs : e.statFails
      · have lhs : cleanupLoop maxAge (e :: rest) acc = acc := by
          simp [cleanupLoop, hf, hs]
        have rhs : scannedPrefix (e :: rest) = [] := by
          simp [scannedPrefix, hf, hs]
        rw [lhs, rhs]
        simp [countOld]
      · have rhs : scannedPrefix (e :: rest) = e :: scannedPrefix rest := by
          simp [scannedPrefix, hs]
        by_cases ha : e.age > maxAge
        · have lhs : cleanupLoop maxAge (e :: rest) acc =
              cleanupLoop maxAge rest (acc + 1) := by
            simp [cleanupLoop, hf, hs, ha]
          rw [lhs, rhs, ih, countOld_cons]
          simp [hf, ha]
          omega
        · have lhs : cleanupLoop maxAge (e :: rest) acc =
              cleanupLoop maxAge rest acc := by
            simp [cleanupLoop, hf, hs, ha]
          rw [lhs, rhs, ih, countOld_cons]
          simp [ha]
    · have rhs : scannedPrefix (e :: rest) = e :: scannedPrefix rest := by
        simp [scannedPrefix, hf]
      have lhs : cleanupLoop maxAge (e :: rest) acc =
          cleanupLoop maxAge rest acc := by
        simp [cleanupLoop, hf]
      rw [lhs, rhs, ih, countOld_cons]
      simp [hf]

/-- A listing in which no `stat()` call fails is scanned in full. -/
theorem scannedPrefix_all (entries : List SweepEntry)
    (h : ∀ e ∈ entries, e.statFails = false) :
    scannedPrefix entries = entries := by
  induction entries with
  | nil => rfl
  | cons e rest ih =>
    have he := h e (List.mem_cons_self e rest)
    simp [scannedPrefix, he, ih (fun x hx => h x (List.mem_cons_of_mem e hx))]

/-! ## Claims -/

/-- C9: the inbound-path resolver (`FileManager.get_voice_path`) is a
pure function of its inputs: the result is the scratch directory joined
with `voice_{user_id}_{file_id}.ogg`, and calls with equal inputs yield
equal paths.  The embedding is a total function with no effect type, in
line with the source body, which performs no filesystem access. -/
theorem c9_resolve_inbound_path_pure (tempDir : String) (userId : Nat)
    (fileId : String) :
    get_voice_path tempDir userId fileId =
      tempDir ++ "/" ++ "voice_" ++ toString userId ++ "_" ++ fileId ++ ".ogg" ∧
    ∀ userId2 fileId2, userId2 = userId → fileId2 = fileId →
      get_voice_path tempDir userId2 fileId2 = get_voice_path tempDir userId fileId := by
  constructor
  · simp only [get_voice_path, String.append_assoc]
  · intro u2 f2 hu hf
    rw [hu, hf]

/-- C9 witness: concrete inputs, evaluating the resolved path. -/
theorem c9_witness :
    get_voice_path "voice_messages" 7 "AF3xyz" = get_voice_path "voice_messages" 7 "AF3xyz" ∧
    get_voice_path "voice_messages" 7 "AF3xyz" = "voice_messages/voice_7_AF3xyz.ogg" :=
  ⟨(c9_resolve_inbound_path_pure "voice_messages" 7 "AF3xyz").2 7 "AF3xyz" rfl rfl,
   by decide⟩

/-- C8: a message listing with no assistant-authored entry makes reply
extraction return the fixed fallback string together with the
conversation id; the embedded loop is total, so no exception is
raised. -/
theorem c8_fallback_reply (msgs : List ThreadMessage) (tid : String)
    (h : ∀ m ∈ msgs, ¬ m.role = "assistant") :
    extract_assistant_response msgs tid = (fallbackResponse, tid) := by
  induction msgs with
  | nil => rfl
  | cons m rest ih =>
    have hm := h m (List.mem_cons_self m rest)
    simp only [extract_assistant_response, if_neg hm]
    exact ih (fun x hx => h x (List.mem_cons_of_mem m hx))

/-- C8 witness: a listing holding only a user message yields the
fallback string. -/
theorem c8_witness :
    extract_assistant_response [⟨"user", [⟨some "Hello"⟩]⟩] "thread-abc" =
      (fallbackResponse, "thread-abc") :=
  c8_fallback_reply _ _ (by decide)

/-- C10: for a listing whose first assistant-authored entry is `m`,
reply extraction returns the space-join of the text values of exactly
those content segments of `m` that carry a `text` field, with the
conversation id unchanged; in particular, when no segment of `m`
carries a `text` field, the reply is the empty string, not the
fallback string. -/
theorem c10_first_assistant_reply (pre post : List ThreadMessage)
    (m : ThreadMessage) (tid : String)
    (hpre : ∀ x ∈ pre, ¬ x.role = "assistant") (hm : m.role = "assistant") :
    extract_assistant_response (pre ++ m :: post) tid =
      (String.intercalate " " (m.content.filterMap ContentSegment.text), tid) ∧
    ((∀ c ∈ m.content, c.text = none) →
      extract_assistant_response (pre ++ m :: post) tid = ("", tid)) := by
  have hmain : ∀ pre2 : List ThreadMessage, (∀ x ∈ pre2, ¬ x.role = "assistant") →
      extract_assistant_response (pre2 ++ m :: post) tid =
        (String.intercalate " " (m.content.filterMap ContentSegment.text), tid) := by
    intro pre2
    induction pre2 with
    | nil => intro _; simp [extract_assistant_response, hm]
    | cons x rest ih =>
      intro hp
      have hx := hp x (List.mem_cons_self x rest)
      simp only [List.cons_append, extract_assistant_response, if_neg hx]
      exact ih (fun y hy => hp y (List.mem_cons_of_mem x hy))
  refine ⟨hmain pre hpre, fun hnone => ?_⟩
  rw [hmain pre hpre]
  have hnil : m.content.filterMap ContentSegment.text = [] :=
    List.filterMap_eq_nil_iff.mpr hnone
  rw [hnil]
  rfl

/-- C10 witness: one assistant message whose single content segment has
no text field yields the empty reply. -/
theorem c10_witness :
    extract_assistant_response [⟨"assistant", [⟨none⟩]⟩] "thread-w" = ("", "thread-w") := by
  have h := c10_first_assistant_reply [] [] ⟨"assistant", [⟨none⟩]⟩ "thread-w"
    (by decide) rfl
  exact h.2 (by decide)

/-- C5: behaviour of `_wait_for_run_completion` over any status
sequence, with polls at the loop's fixed 1-second interval (one
`runs.retrieve` per elapsed second in the model): (a) a run that never
reaches a stopping status within the window raises the timeout fault
after exhausting the window's `timeout + 1` polls; (b) a status
sequence whose first stopping status is `completed` at poll index `N`
(so `completed` shows after `N + 1` polls) makes the wait return
normally after exactly those `N + 1` polls; (c) a first stopping
status in `{failed, cancelled, expired}` at poll index `N` raises the
generic service fault whose message names that terminal status, after
exactly `N + 1` polls. -/
theorem c5_run_polling (statusAt : Nat → String) (timeout N : Nat) :
    ((∀ k, k ≤ timeout → stopsLoop (statusAt k) = false) →
      wait_for_run_completion statusAt timeout =
        (.error (.oaiTimeout (timeoutMsg timeout)), timeout + 1)) ∧
    (N ≤ timeout → (∀ k, k < N → stopsLoop (statusAt k) = false) →
      statusAt N = "completed" →
      wait_for_run_completion statusAt timeout = (.ok (), N + 1)) ∧
    (N ≤ timeout → (∀ k, k < N → stopsLoop (statusAt k) = false) →
      isTerminalStatus (statusAt N) = true →
      wait_for_run_completion statusAt timeout =
        (.error (.oaiService ("Обработка запроса не выполнена, статус: " ++ statusAt N)),
         N + 1)) := by
  refine ⟨?_, ?_, ?_⟩
  · intro h
    have := waitGo_timeout_of_no_stop statusAt timeout (timeout + 1) 0
      (fun k hk => by simpa using h k (by omega))
    simpa [wait_for_run_completion] using this
  · intro hN hpre hc
    have := waitGo_completed statusAt timeout (timeout + 1) 0 N (by omega)
      (fun k hk => by simpa using hpre k hk) (by simpa using hc)
    simpa [wait_for_run_completion] using this
  · intro hN hpre ht
    have := waitGo_terminal statusAt timeout (timeout + 1) 0 N (by omega)
      (fun k hk => by simpa using hpre k hk) (by simpa using ht)
    simpa [wait_for_run_completion] using this

/-- C5 witness: with a 2-second window — a status that never stops the
loop times out after 3 polls; `completed` first appearing on the
second poll returns after 2 polls; an immediate `failed` raises the
service fault naming it after 1 poll. -/
theorem c5_witness :
    wait_for_run_completion (fun _ => "in_progress") 2 =
      (.error (.oaiTimeout (timeoutMsg 2)), 3) ∧
    wait_for_run_completion (fun k => if k = 1 then "completed" else "queued") 2 =
      (.ok (), 2) ∧
    wait_for_run_completion (fun _ => "failed") 2 =
      (.error (.oaiService ("Обработка запроса не выполнена, статус: " ++ "failed")), 1) := by
  refine ⟨?_, ?_, ?_⟩
  · exact (c5_run_polling (fun _ => "in_progress") 2 0).1 (by decide)
  · exact (c5_run_polling (fun k => if k = 1 then "completed" else "queued") 2 1).2.1
      (by decide) (by decide) (by decide)
  · exact (c5_run_polling (fun _ => "failed") 2 0).2.2 (by decide) (by decide) (by decide)

/-- The provider behaviour of claim C2's scenario: every provider call
succeeds, but the run status never leaves `in_progress` within the
60-second window. -/
def neverCompleting : RespondBehavior :=
  ⟨none, none, none, fun _ => "in_progress", none, []⟩

/-- C2 (code bug): when the run never reaches a terminal status within
the window, the polling loop does raise the dedicated timeout fault
(`OpenAITimeoutError`, second conjunct) — but `respond`'s `except
asyncio.TimeoutError` clause does not match it, so the blanket `except
Exception` clause re-wraps it and `respond` raises the generic
`OpenAIServiceError` (first conjunct), not the timeout kind the spec
promises. -/
theorem c2_timeout_becomes_service_error :
    (respond neverCompleting 0 none).result =
      .error (.oaiService ("Ошибка при получении ответа от ассистента: " ++ timeoutMsg 60)) ∧
    (wait_for_run_completion neverCompleting.statusAt 60).1 =
      .error (.oaiTimeout (timeoutMsg 60)) :=
  ⟨rfl, rfl⟩

/-- The directory listing of claim C4's counterexample: the `stat()`
call raises on the first (old) file; the second file is old and
fault-free. -/
def c4Listing : List SweepEntry :=
  [⟨true, 1000, true⟩, ⟨true, 1000, false⟩]

/-- C4 counterexample: on `c4Listing` with the default 600-second
threshold, the code's sweep returns 0 — the individual-file `stat()`
error aborted the scan before the old second file was visited — while
the error-tolerant scan the claim describes deletes that file and
returns 1. -/
theorem c4_counterexample :
    cleanup_old_files c4Listing 600 = 0 ∧
    cleanup_old_files_spec c4Listing 600 = 1 := by
  constructor <;> rfl

/-- C4 (amended): any error raised during the scan — including one on
an individual file's `stat()` — is caught by the sweep's single
try/except, and the partial count accumulated over the prefix scanned
before the error is returned instead of raising; an individual-file
error therefore aborts the scan of the remaining files.  A fault-free
listing is scanned in full and yields the full count of old files. -/
theorem c4_sweep_partial_count (entries : List SweepEntry) (maxAge : Int) :
    cleanup_old_files entries maxAge = countOld maxAge (scannedPrefix entries) ∧
    ((∀ e ∈ entries, e.statFails = false) →
      cleanup_old_files entries maxAge = countOld maxAge entries) := by
  constructor
  · simpa [cleanup_old_files] using cleanupLoop_eq maxAge entries 0
  · intro h
    have h1 := cleanupLoop_eq maxAge entries 0
    rw [scannedPrefix_all entries h] at h1
    simpa [cleanup_old_files] using h1

/-- C4 witness: a fault-free listing with one old and one fresh file is
scanned in full and yields count 1. -/
theorem c4_witness :
    cleanup_old_files [⟨true, 1000, false⟩, ⟨true, 10, false⟩] 600 =
      countOld 600 (scannedPrefix [⟨true, 1000, false⟩, ⟨true, 10, false⟩]) ∧
    cleanup_old_files [⟨true, 1000, false⟩, ⟨true, 10, false⟩] 600 = 1 := by
  refine ⟨(c4_sweep_partial_count [⟨true, 1000, false⟩, ⟨true, 10, false⟩] 600).1, ?_⟩
  have h := (c4_sweep_partial_count [⟨true, 1000, false⟩, ⟨true, 10, false⟩] 600).2
    (by decide)
  rw [h]
  decide

/-- `_get_response` makes exactly the creation calls its inner
`respond` call makes, whether or not that call succeeds. -/
theorem get_response_createCalls (b : RespondBehavior) (c : Nat)
    (threads : Nat → Option String) (u : Nat) :
    (get_response b c threads u).createCalls =
      (respond b c (threads u)).createCalls := by
  rcases hr : (respond b c (threads u)).result with e | v
  · simp [get_response, hr]
  · obtain ⟨rp, t2⟩ := v
    simp [get_response, hr]

/-- Once the registry holds a (non-empty) conversation id for a user,
a `_get_response` call for that user leaves the entry unchanged: on
success `respond` hands the same id back and it is stored again; on
failure the registry is not written. -/
theorem get_response_keeps (b : RespondBehavior) (c : Nat)
    (threads : Nat → Option String) (u : Nat) (t : String)
    (hu : threads u = some t) (ht : ¬ t = "") :
    (get_response b c threads u).threads u = some t := by
  rcases hr : (respond b c (threads u)).result with e | v
  · simp [get_response, hr]
    exact hu
  · obtain ⟨rp, t2⟩ := v
    have h2 : t2 = t := by
      apply respond_some_ok_tid b c t ht rp t2
      rw [← hu]
      exact hr
    subst h2
    simp [get_response, hr, updateThreads]

/-- A successful `_get_response` for a user with no registry entry
returns the conversation id the provider issued and stores it under
the user. -/
theorem get_response_fresh (b : RespondBehavior) (c : Nat)
    (threads : Nat → Option String) (u : Nat) (rp t2 : String)
    (hu : threads u = none)
    (hok : (get_response b c threads u).result = .ok (rp, t2)) :
    t2 = newThreadId c ∧ (get_response b c threads u).threads u = some t2 := by
  rcases hr : (respond b c (threads u)).result with e | v
  · exfalso
    simp [get_response, hr] at hok
  · obtain ⟨rp', t2'⟩ := v
    have hok' : rp' = rp ∧ t2' = t2 := by
      simpa [get_response, hr] using hok
    obtain ⟨he1, he2⟩ := hok'
    subst he1
    subst he2
    have hre : (respond b c none).result = .ok (rp', t2') := by
      rw [← hu]
      exact hr
    refine ⟨respond_none_ok_tid b c rp' t2' hre, ?_⟩
    simp [get_response, hr, updateThreads]

/-- C6: session invariants of the per-user registry (`user_threads`)
and `respond` — (1) with no conversation id supplied, `respond` makes
exactly one conversation-creation call; (2) with a supplied
provider-issued (hence non-empty) id it makes none; (3) on success
with a supplied id, the returned id is the supplied one, unchanged;
(4) once the registry holds such an id for a user, a `_get_response`
call for that user leaves the entry unchanged whatever the provider
does, so the id never changes for the process lifetime (the registry
is a map, so it holds at most one id per user by construction);
(5) for a user with no entry, after a first successful
`_get_response`, the second `_get_response` — which supplies the id
returned and stored by the first — makes no creation call and leaves
the entry at that id. -/
theorem c6_session_registry (b b2 : RespondBehavior) (c : Nat)
    (threads : Nat → Option String) (u : Nat) (t : String) :
    ((respond b c none).createCalls = 1) ∧
    (¬ t = "" → (respond b c (some t)).createCalls = 0) ∧
    (¬ t = "" → ∀ rp t2, (respond b c (some t)).result = .ok (rp, t2) → t2 = t) ∧
    (threads u = some t → ¬ t = "" →
      (get_response b c threads u).threads u = some t) ∧
    (threads u = none →
      ∀ rp t2, (get_response b c threads u).result = .ok (rp, t2) →
        (get_response b2 (get_response b c threads u).counter
            (get_response b c threads u).threads u).createCalls = 0 ∧
        (get_response b2 (get_response b c threads u).counter
            (get_response b c threads u).threads u).threads u = some t2) := by
  refine ⟨respond_none_createCalls b c,
    fun ht => respond_some_createCalls b c t ht,
    fun ht rp t2 h => respond_some_ok_tid b c t ht rp t2 h,
    fun hu ht => get_response_keeps b c threads u t hu ht,
    fun hu rp t2 hok => ?_⟩
  obtain ⟨htid, hth⟩ := get_response_fresh b c threads u rp t2 hu hok
  have ht2 : ¬ t2 = "" := by
    rw [htid]
    exact newThreadId_ne_empty c
  constructor
  · rw [get_response_createCalls b2 _ _ u, hth]
    exact respond_some_createCalls b2 _ t2 ht2
  · exact get_response_keeps b2 _ _ u t2 hth ht2

/-- A behaviour in which every provider call succeeds, the run
completes on the first poll, and the assistant answered "Hi there". -/
def okBehavior : RespondBehavior :=
  ⟨none, none, none, fun _ => "completed",
   none, [⟨"assistant", [⟨some "Hi there"⟩]⟩]⟩

/-- C6 witness: concrete two-call scenario for user 7 — the first call
creates one conversation (`thread-0`) and stores it; the second call,
supplying it, creates none and keeps the entry; an existing entry is
kept unchanged. -/
theorem c6_witness :
    (respond okBehavior 0 none).createCalls = 1 ∧
    (get_response okBehavior 5 (fun v => if v = 7 then some "thread-9" else none) 7).threads 7 =
      some "thread-9" ∧
    (get_response okBehavior (get_response okBehavior 0 (fun _ => none) 7).counter
        (get_response okBehavior 0 (fun _ => none) 7).threads 7).createCalls = 0 ∧
    (get_response okBehavior (get_response okBehavior 0 (fun _ => none) 7).counter
        (get_response okBehavior 0 (fun _ => none) 7).threads 7).threads 7 =
      some "thread-0" := by
  have h5 := (c6_session_registry okBehavior okBehavior 0 (fun _ => none) 7 "t").2.2.2.2
    rfl "Hi there" "thread-0" rfl
  exact ⟨(c6_session_registry okBehavior okBehavior 0 (fun _ => none) 7 "t").1,
    (c6_session_registry okBehavior okBehavior 5
        (fun v => if v = 7 then some "thread-9" else none) 7 "thread-9").2.2.2.1
      (by decide) (by decide),
    h5.1, h5.2⟩

/-- Fault injection of claim C1's failing input: the transcription
call raises; every other step would succeed. -/
def faultAtTranscription : VoiceFaults :=
  ⟨none, some (.oaiService "whisper unavailable"), none, none, none⟩

/-- Fault injection of the second cleanup gap: the final voice-reply
send raises after synthesis succeeded. -/
def faultAtSend : TextFaults := ⟨none, none, some (.other "network error")⟩

/-- C1 (code bug): cleanup is not complete on every fault path.
First conjunct — a voice request whose transcription step raises:
the downloaded artifact was created, but the `finally` block reads the
never-initialised `msg_deleted` local and raises `UnboundLocalError`
before any `delete_file` call, so the artifact is passed to delete
zero times.  Second conjunct — a text request whose final send raises:
the synthesis file was created on disk, but its path never reached the
handler's `answer_file_path` local, so it too is passed to delete zero
times even though the `finally` block runs fully. -/
theorem c1_cleanup_not_reached :
    handle_voice faultAtTranscription "/tmp/voice_7_f1.ogg" "/tmp/response_a.mp3" =
      ⟨["/tmp/voice_7_f1.ogg"], [], 0, 1, some (.unboundLocal "msg_deleted")⟩ ∧
    handle_text faultAtSend "/tmp/response_b.mp3" =
      ⟨["/tmp/response_b.mp3"], [], 1, 1, none⟩ :=
  ⟨rfl, rfl⟩

/-- Fault injection of claim C3's failing input: the download step
raises; every other step would succeed. -/
def faultAtDownload : VoiceFaults :=
  ⟨some (.other "download failed"), none, none, none, none⟩

/-- C3 (code bug): on a voice request whose download step raises, the
apology message is sent (the `except` clause runs first), but the
`finally` block raises `UnboundLocalError` on the never-initialised
`msg_deleted` local before `msg.delete()`, so the "processing…"
placeholder is never removed — `placeholderDeletes = 0` at the end of
the handler. -/
theorem c3_placeholder_not_removed :
    handle_voice faultAtDownload "/tmp/voice_7_f2.ogg" "/tmp/response_c.mp3" =
      ⟨[], [], 0, 1, some (.unboundLocal "msg_deleted")⟩ :=
  rfl

/-- The provider state of claim C7's counterexample: the most recently
created assistant is unrelated; a `tg-ai-voice-bot` assistant exists
further down the listing. -/
def c7Listing : List Assistant :=
  [⟨"unrelated-assistant", "asst-first"⟩, ⟨"tg-ai-voice-bot", "asst-bot"⟩]

/-- C7 counterexample: an assistant named `tg-ai-voice-bot` exists in
the provider state (first conjunct), yet — because the bootstrap lists
with `limit=1` and inspects only the first entry — it creates a new
assistant and stores the fresh id instead of reusing `asst-bot`
(second conjunct). -/
theorem c7_counterexample :
    c7Listing.any (fun a => a.name = botAssistantName) = true ∧
    initialize_assistant c7Listing "asst-new" "be helpful" =
      ("asst-new", some ⟨botAssistantName, "be helpful", "gpt-4o", "asst-new"⟩) := by
  constructor
  · decide
  · rfl

/-- C7 (amended): the bootstrap inspects only the single entry the
listing with `limit=1` returns. If that first entry bears the fixed
name, its id is reused and no assistant is created; otherwise — a
differently named first entry, or an empty listing — a new assistant
is created with the configured instruction payload and the fixed model
`gpt-4o`, and the fresh id is stored, even when a `tg-ai-voice-bot`
assistant exists further down the listing. -/
theorem c7_bootstrap_first_entry (listing rest : List Assistant)
    (a : Assistant) (freshId instruction : String) :
    (listing = a :: rest → a.name = botAssistantName →
      initialize_assistant listing freshId instruction = (a.id, none)) ∧
    (listing = a :: rest → ¬ a.name = botAssistantName →
      initialize_assistant listing freshId instruction =
        (freshId, some ⟨botAssistantName, instruction, "gpt-4o", freshId⟩)) ∧
    (listing = [] →
      initialize_assistant listing freshId instruction =
        (freshId, some ⟨botAssistantName, instruction, "gpt-4o", freshId⟩)) := by
  refine ⟨?_, ?_, ?_⟩
  · intro hl hn
    subst hl
    simp [initialize_assistant, hn]
  · intro hl hn
    subst hl
    simp [initialize_assistant, hn]
  · intro hl
    subst hl
    rfl

/-- C7 witness: a listing led by the bot-named assistant is reused; an
empty listing leads to creation. -/
theorem c7_witness :
    initialize_assistant [⟨"tg-ai-voice-bot", "asst-keep"⟩] "asst-n" "inst" =
      ("asst-keep", none) ∧
    initialize_assistant [] "asst-n" "inst" =
      ("asst-n", some ⟨botAssistantName, "inst", "gpt-4o", "asst-n"⟩) :=
  ⟨(c7_bootstrap_first_entry [⟨"tg-ai-voice-bot", "asst-keep"⟩] []
      ⟨"tg-ai-voice-bot", "asst-keep"⟩ "asst-n" "inst").1 rfl rfl,
   (c7_bootstrap_first_entry [] [] ⟨"x", "y"⟩ "asst-n" "inst").2.2 rfl⟩
